import Mathlib

/-!
Shallow embedding of the Diagnosis & Scoring Engine of the northlight
repository (frontend benchmark script and the churn risk waterfall).
JavaScript numbers are modelled as rationals; nullable values as Option.
Presentation-only material (HTML strings, labels, tooltips) is elided;
the embedded functions return the decision-relevant data (verdicts,
ranges, outcomes, annotations, waterfall spans and cumulative totals).
-/

/-- Direction of improvement for a metric. -/
inductive Direction
  | lower_is_better
  | higher_is_better
  deriving DecidableEq

/-- Verdict of a value against a target range. -/
inductive Verdict
  | on_target
  | exceeds_target
  | outside_target
  | unknown
  deriving DecidableEq

/-- Currency or percent unit tag passed to ensureTargetRange. -/
inductive MUnit
  | dollar
  | pct
  deriving DecidableEq

/-- Metric name tag passed to ensureTargetRange. -/
inductive MetricName
  | CPL
  | CPC
  | CR
  deriving DecidableEq

/-- A candidate target range whose bounds may be missing. -/
structure RangeOpt where
  low : Option ℚ
  high : Option ℚ
  deriving DecidableEq

/-- A concrete target range with both bounds present. -/
structure RangeR where
  low : ℚ
  high : ℚ
  deriving DecidableEq

/-- MetricSample: observed value plus percentile benchmark statistics. -/
structure MetricSample where
  value : Option ℚ := none
  median : Option ℚ := none
  p25 : Option ℚ := none
  p75 : Option ℚ := none
  target_range : Option RangeOpt := none
  delta_from_target : Option ℚ := none
  peer_multiple : Option ℚ := none
  deriving DecidableEq

/-- JavaScript idiom x || 0 on a nullable number (null becomes 0). -/
def jsOr0 : Option ℚ → ℚ
  | none => 0
  | some x => x

/-- Missing metric object behaves as an object with all fields null. -/
def sampleOf : Option MetricSample → MetricSample
  | some s => s
  | none => {}

/-- The fallback part of ensureTargetRange, reached when the caller did
not precompute a complete target_range: derive a range from p25/p75 when
both are present, otherwise synthesize a symmetric band around the center
m given by the median, the value, or a unit/metric default. -/
def etrFallback (s : MetricSample) (unit : MUnit) (name : MetricName) : RangeR :=
  let m := s.median.getD (s.value.getD
    (if unit = MUnit.pct then 1/20 else if name = MetricName.CPC then 3 else 50))
  match s.p25, s.p75 with
  | some q25, some q75 => ⟨max 0 q25, max q75 q25⟩
  | _, _ =>
    let span := max (1/100000) (m * (15/100))
    ⟨max 0 (m - span), m + span⟩

/-- ensureTargetRange from the benchmark script: return the supplied
target_range unchanged when both bounds are present, otherwise fall back
to the derived range. -/
def ensureTargetRange (md : Option MetricSample) (unit : MUnit) (name : MetricName) : RangeR :=
  let s := sampleOf md
  match s.target_range with
  | some tr =>
    match tr.low, tr.high with
    | some lo, some hi => ⟨lo, hi⟩
    | _, _ => etrFallback s unit name
  | none => etrFallback s unit name

/-- deriveVerdict from the benchmark script. -/
def deriveVerdict (value : Option ℚ) (targetRange : Option RangeOpt) (direction : Direction) : Verdict :=
  match value, targetRange with
  | some v, some r =>
    match r.low, r.high with
    | some lo, some hi =>
      if lo ≤ v ∧ v ≤ hi then Verdict.on_target
      else
        match direction with
        | Direction.lower_is_better =>
          if v < lo then Verdict.exceeds_target else Verdict.outside_target
        | Direction.higher_is_better =>
          if v > hi then Verdict.exceeds_target else Verdict.outside_target
    | _, _ => Verdict.unknown
  | _, _ => Verdict.unknown

/-- Lift a concrete range back to the optional form used by deriveVerdict. -/
def RangeR.toOpt (r : RangeR) : Option RangeOpt :=
  some ⟨some r.low, some r.high⟩

/-- deltaPctFromRange from the benchmark script. -/
def deltaPctFromRange (value : ℚ) (r : RangeR) : ℚ :=
  if value < r.low then ((r.low - value) / max r.low (1/1000000000)) * 100
  else if value > r.high then ((value - r.high) / max r.high (1/1000000000)) * 100
  else 0

/-- Per-metric status used by the diagnosis decision tree. -/
inductive MStatus
  | UNKNOWN
  | GOOD
  | AVG
  | WEAK
  deriving DecidableEq

/-- statusFromBench from the benchmark script. -/
def statusFromBench (metric : Option MetricSample) (name : MetricName) (unit : MUnit) (dir : Direction) : MStatus :=
  match metric with
  | none => MStatus.UNKNOWN
  | some m =>
    match m.value with
    | none => MStatus.UNKNOWN
    | some v =>
      let tr := ensureTargetRange metric unit name
      let verdict := deriveVerdict (some v) tr.toOpt dir
      if verdict = Verdict.on_target ∨ verdict = Verdict.exceeds_target then MStatus.GOOD
      else if deltaPctFromRange v tr ≤ 15 then MStatus.AVG
      else MStatus.WEAK

/-- Scalar campaign inputs of the diagnosis payload. -/
structure DiagInput where
  budget : Option ℚ := none
  clicks : Option ℚ := none
  leads : Option ℚ := none
  goal_cpl : Option ℚ := none
  deriving DecidableEq

/-- Benchmark samples for the three metrics. -/
structure Benchmarks where
  cpl : Option MetricSample := none
  cpc : Option MetricSample := none
  cr : Option MetricSample := none
  deriving DecidableEq

/-- Overall goal status supplied by the server; values other than the
three recognized strings all behave alike and are collapsed to other. -/
inductive GoalStatus
  | achieved
  | on_track
  | behind
  | other
  deriving DecidableEq

/-- Payload consumed by renderDiagnosis. The goal_analysis and targets
objects feed only the rendered message strings and the kicker note, never
the chosen outcome or the provisional/budget tag, so they are elided. -/
structure DiagData where
  input : DiagInput
  benchmarks : Benchmarks := {}
  overall_goal_status : Option GoalStatus := none
  deriving DecidableEq

/-- The diagnostic outcome selected by the decision tree. -/
inductive Outcome
  | no_traffic
  | verify_tracking
  | budget_too_low
  | ready_to_scale
  | realign_goal_expectations
  | fix_conversion_rate
  | reduce_traffic_cost
  | fix_cpc_first
  | fix_cr_first
  | monitor_performance
  deriving DecidableEq

/-- Presentation annotation attached to the diagnosis card. -/
inductive Tag
  | provisional
  | budget_constrained
  | noTag
  deriving DecidableEq

/-- Outcome plus presentation annotation returned by the diagnosis. -/
structure Diagnosis where
  outcome : Outcome
  tag : Tag
  deriving DecidableEq

/-- The suspiciously-high conversion-rate test of diagnosis rule 2. -/
def crSuspicious (bm : Benchmarks) : Bool :=
  match bm.cr.bind MetricSample.value with
  | none => false
  | some v =>
    let tr := ensureTargetRange bm.cr MUnit.pct MetricName.CR
    decide (v > max (tr.high * (18/10)) (15/100))

/-- JavaScript test x != null && x < c on a nullable number. -/
def budgetBelow (x : Option ℚ) (c : ℚ) : Bool :=
  match x with
  | some b => decide (b < c)
  | none => false

/-- renderDiagnosis from the benchmark script, reduced to the selected
outcome and the provisional/budget-constrained tag; the card text, list
items and the aggressive-goal kicker are presentation only. -/
def renderDiagnosis (d : DiagData) : Diagnosis :=
  let input := d.input
  let bm := d.benchmarks
  let status := d.overall_goal_status
  if jsOr0 input.clicks = 0 then ⟨Outcome.no_traffic, Tag.noTag⟩
  else if (input.leads = some 0 ∧ 100 ≤ jsOr0 input.clicks) ∨ crSuspicious bm = true then
    ⟨Outcome.verify_tracking, Tag.noTag⟩
  else if budgetBelow input.budget 500 = true then
    ⟨Outcome.budget_too_low, Tag.noTag⟩
  else
    let softBudgetBanner :=
      if budgetBelow input.budget 1000 = true then Tag.budget_constrained
      else Tag.noTag
    let provisional := jsOr0 input.leads < 15 ∨ jsOr0 input.clicks < 300
    let provisionalTag := if provisional then Tag.provisional else softBudgetBanner
    let cplStatus := statusFromBench bm.cpl MetricName.CPL MUnit.dollar Direction.lower_is_better
    let cpcStatus := statusFromBench bm.cpc MetricName.CPC MUnit.dollar Direction.lower_is_better
    let crStatus := statusFromBench bm.cr MetricName.CR MUnit.pct Direction.higher_is_better
    let performanceIsGood :=
      cplStatus ≠ MStatus.WEAK ∧ cpcStatus ≠ MStatus.WEAK ∧ crStatus ≠ MStatus.WEAK
    if performanceIsGood then
      if status = some GoalStatus.achieved ∨ status = some GoalStatus.on_track then
        ⟨Outcome.ready_to_scale, provisionalTag⟩
      else ⟨Outcome.realign_goal_expectations, provisionalTag⟩
    else if status = some GoalStatus.behind then
      let trCPC := ensureTargetRange bm.cpc MUnit.dollar MetricName.CPC
      let trCR := ensureTargetRange bm.cr MUnit.pct MetricName.CR
      let cpcExtreme :=
        match bm.cpc.bind MetricSample.value with
        | some v => decide (v > trCPC.high * (3/2))
        | none => false
      let crDeep :=
        match bm.cr.bind MetricSample.value with
        | some v => decide (v < trCR.low * (1/2))
        | none => false
      if crStatus = MStatus.WEAK ∧ cpcStatus ≠ MStatus.WEAK then
        ⟨Outcome.fix_conversion_rate, provisionalTag⟩
      else if cpcStatus = MStatus.WEAK ∧ crStatus ≠ MStatus.WEAK then
        ⟨Outcome.reduce_traffic_cost, provisionalTag⟩
      else if cpcExtreme = true ∧ crDeep = false then
        ⟨Outcome.fix_cpc_first, provisionalTag⟩
      else ⟨Outcome.fix_cr_first, provisionalTag⟩
    else ⟨Outcome.monitor_performance, provisionalTag⟩

/-- Modelled from the spec: the outcome that would be chosen without the
annotation, used to state that the low-volume and budget tags are purely
presentational. Identical decision tree with no annotation computed. -/
def diagnosisOutcomeOnly (d : DiagData) : Outcome :=
  let input := d.input
  let bm := d.benchmarks
  let status := d.overall_goal_status
  if jsOr0 input.clicks = 0 then Outcome.no_traffic
  else if (input.leads = some 0 ∧ 100 ≤ jsOr0 input.clicks) ∨ crSuspicious bm = true then
    Outcome.verify_tracking
  else if budgetBelow input.budget 500 = true then Outcome.budget_too_low
  else
    let cplStatus := statusFromBench bm.cpl MetricName.CPL MUnit.dollar Direction.lower_is_better
    let cpcStatus := statusFromBench bm.cpc MetricName.CPC MUnit.dollar Direction.lower_is_better
    let crStatus := statusFromBench bm.cr MetricName.CR MUnit.pct Direction.higher_is_better
    let performanceIsGood :=
      cplStatus ≠ MStatus.WEAK ∧ cpcStatus ≠ MStatus.WEAK ∧ crStatus ≠ MStatus.WEAK
    if performanceIsGood then
      if status = some GoalStatus.achieved ∨ status = some GoalStatus.on_track then
        Outcome.ready_to_scale
      else Outcome.realign_goal_expectations
    else if status = some GoalStatus.behind then
      let trCPC := ensureTargetRange bm.cpc MUnit.dollar MetricName.CPC
      let trCR := ensureTargetRange bm.cr MUnit.pct MetricName.CR
      let cpcExtreme :=
        match bm.cpc.bind MetricSample.value with
        | some v => decide (v > trCPC.high * (3/2))
        | none => false
      let crDeep :=
        match bm.cr.bind MetricSample.value with
        | some v => decide (v < trCR.low * (1/2))
        | none => false
      if crStatus = MStatus.WEAK ∧ cpcStatus ≠ MStatus.WEAK then Outcome.fix_conversion_rate
      else if cpcStatus = MStatus.WEAK ∧ crStatus ≠ MStatus.WEAK then Outcome.reduce_traffic_cost
      else if cpcExtreme = true ∧ crDeep = false then Outcome.fix_cpc_first
      else Outcome.fix_cr_first
    else Outcome.monitor_performance

/-- Scenario builder state: budget, cost-per-click, conversion-rate. -/
structure SBState where
  budget : ℚ
  cpc : ℚ
  cr : ℚ
  deriving DecidableEq

/-- Scenario builder bounds for the three fields. -/
structure SBounds where
  budgetMin : ℚ
  budgetMax : ℚ
  cpcMin : ℚ
  cpcMax : ℚ
  crMin : ℚ
  crMax : ℚ
  deriving DecidableEq

/-- The clamp helper of the scenario builder. -/
def clamp (v mn mx : ℚ) : ℚ := min (max v mn) mx

/-- Derived values displayed by the scenario builder. -/
structure Derived where
  clicks : ℚ
  leads : ℚ
  cpl : Option ℚ
  deriving DecidableEq

/-- The compute closure of renderScenarioBuilder. -/
def compute (st : SBState) : Derived :=
  { clicks := if st.budget > 0 ∧ st.cpc > 0 then st.budget / st.cpc else 0
    leads := if st.cr > 0 ∧ st.cpc > 0 then st.budget * st.cr / st.cpc else 0
    cpl := if st.cr > 0 then some (st.cpc / st.cr) else none }

/-- The three editable scenario fields. -/
inductive SBField
  | budget
  | cpc
  | cr
  deriving DecidableEq

/-- Lower bound of a scenario field. -/
def fieldMin (b : SBounds) : SBField → ℚ
  | SBField.budget => b.budgetMin
  | SBField.cpc => b.cpcMin
  | SBField.cr => b.crMin

/-- Upper bound of a scenario field. -/
def fieldMax (b : SBounds) : SBField → ℚ
  | SBField.budget => b.budgetMax
  | SBField.cpc => b.cpcMax
  | SBField.cr => b.crMax

/-- Read a scenario field. -/
def getField (st : SBState) : SBField → ℚ
  | SBField.budget => st.budget
  | SBField.cpc => st.cpc
  | SBField.cr => st.cr

/-- Write a scenario field. -/
def setField (st : SBState) : SBField → ℚ → SBState
  | SBField.budget, v => { st with budget := v }
  | SBField.cpc, v => { st with cpc := v }
  | SBField.cr, v => { st with cr := v }

/-- updateState from renderScenarioBuilder as a pure transition. The raw
input is the result of parseFloat: none stands for a non-finite parse, on
which the original returns without touching the state. -/
def updateState (st : SBState) (b : SBounds) (key : SBField) (raw : Option ℚ) (isFromNumeric : Bool) : SBState :=
  match raw with
  | none => st
  | some n =>
    let num := if key = SBField.cr ∧ isFromNumeric = true then n / 100 else n
    setField st key (clamp num (fieldMin b key) (fieldMax b key))

/-- The sb_snap_cr click handler: solve for the goal cost-per-lead by
moving the conversion-rate, guarded by goal and cpc positivity. -/
def solveForGoalViaCR (st : SBState) (b : SBounds) (goal : Option ℚ) : SBState :=
  match goal with
  | some g =>
    if g > 0 ∧ st.cpc > 0 then { st with cr := clamp (st.cpc / g) b.crMin b.crMax }
    else st
  | none => st

/-- Waterfall driver type tags as they appear in the payload. -/
inductive DType
  | controllable
  | protective
  | structural
  | residual
  deriving DecidableEq

/-- A churn waterfall driver: signed percentage-point contribution plus
an optional explicit type tag (label and tooltip text elided). -/
structure WDriver where
  pp : ℚ
  type : Option DType := none
  deriving DecidableEq

/-- Configuration of renderChurnWaterfall. -/
structure WConfig where
  cap_to : Option ℚ := none
  total_pct : Option ℚ := none
  baseline_pp : Option ℚ := none
  drivers : List WDriver := []
  reconcile : Bool := false
  deriving DecidableEq

/-- One rendered waterfall bar: class, left edge, width, displayed pp. -/
structure WStep where
  cls : DType
  left : ℚ
  width : ℚ
  pp : ℚ
  deriving DecidableEq

/-- Result of the waterfall rendering: the driver bars (baseline row
elided), the appended residual contribution if any, and the footer
cumulative value. -/
structure WResult where
  steps : List WStep
  residual : Option ℚ
  cumulative : ℚ
  deriving DecidableEq

/-- The cap closure of renderChurnWaterfall. -/
def wcap (capTo : ℚ) (n : ℚ) : ℚ := max 0 (min capTo n)

/-- CSS class chosen for a driver bar. -/
def driverClass (d : WDriver) : DType :=
  if d.type = some DType.controllable then DType.controllable
  else if d.type = some DType.protective ∨ d.pp < 0 then DType.protective
  else if d.type = some DType.residual then DType.residual
  else DType.structural

/-- The driver loop of renderChurnWaterfall: fold the capped cumulative
through the drivers, emitting one bar per driver. -/
def processDrivers (capTo : ℚ) : ℚ → List WDriver → List WStep × ℚ
  | cum, [] => ([], cum)
  | cum, d :: rest =>
    let next := wcap capTo (cum + d.pp)
    let r := processDrivers capTo next rest
    (⟨driverClass d, min cum next, |next - cum|, d.pp⟩ :: r.1, r.2)

/-- JavaScript Math.round: floor of x + one half. -/
def jsRound (x : ℚ) : ℤ := ⌊x + 1/2⌋

/-- renderChurnWaterfall from risk_waterfall.js, reduced to the bar
geometry and cumulative bookkeeping (DOM and tooltip plumbing elided). -/
def renderChurnWaterfall (cfg : WConfig) : WResult :=
  let capTo := cfg.cap_to.getD 100
  let totalTarget := wcap capTo (cfg.total_pct.getD 0)
  let cum0 := wcap capTo (jsOr0 cfg.baseline_pp)
  let r := processDrivers capTo cum0 cfg.drivers
  let cum1 := r.2
  let diff : ℤ := jsRound (totalTarget - cum1)
  if cfg.reconcile = true ∧ 1 ≤ |diff| then
    let next := wcap capTo (cum1 + (diff : ℚ))
    { steps := r.1 ++ [⟨DType.residual, min cum1 next, |next - cum1|, (diff : ℚ)⟩]
      residual := some (diff : ℚ)
      cumulative := next }
  else
    { steps := r.1, residual := none, cumulative := cum1 }

/-- An optional number that is nonnegative whenever present. -/
def OptNonneg (x : Option ℚ) : Prop := ∀ q ∈ x, 0 ≤ q

/-- A missing metric value makes the per-metric status UNKNOWN. -/
theorem statusFromBench_unknown (m : Option MetricSample) (name : MetricName) (unit : MUnit)
    (dir : Direction) (h : m.bind MetricSample.value = none) :
    statusFromBench m name unit dir = MStatus.UNKNOWN := by
  cases m with
  | none => rfl
  | some s =>
    cases hv : s.value with
    | none => simp [statusFromBench, hv]
    | some v => simp [Option.bind, hv] at h

/-- Reading back a freshly written scenario field. -/
theorem getField_setField (st : SBState) (key : SBField) (v : ℚ) :
    getField (setField st key v) key = v := by
  cases key <;> rfl

/-- The capped cumulative is nonnegative. -/
theorem wcap_nonneg (c n : ℚ) : 0 ≤ wcap c n := le_max_left 0 _

/-- The capped cumulative never exceeds the cap (or zero). -/
theorem wcap_le_max (c n : ℚ) : wcap c n ≤ max 0 c :=
  max_le_max (le_refl 0) (min_le_left _ _)

/-- Capping a value that sits within one half of a target that is itself
inside the admissible band keeps it within one of the target. -/
theorem wcap_near (c u t : ℚ) (ht0 : 0 ≤ t) (htc : t ≤ max 0 c)
    (h1 : t - 1/2 < u) (h2 : u ≤ t + 1/2) : |wcap c u - t| < 1 := by
  rw [abs_lt]
  rcases le_or_lt u c with hc | hc
  · rcases le_or_lt 0 u with h0 | h0
    · have hw : wcap c u = u := by rw [wcap, min_eq_right hc, max_eq_right h0]
      rw [hw]; constructor <;> linarith
    · have hw : wcap c u = 0 := by rw [wcap, min_eq_right hc, max_eq_left (le_of_lt h0)]
      rw [hw]; constructor <;> linarith
  · have hmin : min c u = c := min_eq_left (le_of_lt hc)
    rcases le_or_lt 0 c with h0 | h0
    · have hw : wcap c u = c := by rw [wcap, hmin, max_eq_right h0]
      have htc2 : t ≤ c := by rwa [max_eq_right h0] at htc
      rw [hw]; constructor <;> linarith
    · have hw : wcap c u = 0 := by rw [wcap, hmin, max_eq_left (le_of_lt h0)]
      have ht2 : t ≤ 0 := by rwa [max_eq_left (le_of_lt h0)] at htc
      rw [hw]; constructor <;> linarith

/-- The reconciliation step lands within one of the capped target. -/
theorem reconcile_near (c t cum1 : ℚ) (ht0 : 0 ≤ t) (htc : t ≤ max 0 c) :
    |(if 1 ≤ |jsRound (t - cum1)| then wcap c (cum1 + ((jsRound (t - cum1) : ℤ) : ℚ)) else cum1) - t| < 1 := by
  have h1 : ((jsRound (t - cum1) : ℤ) : ℚ) ≤ t - cum1 + 1/2 := by
    rw [jsRound]; exact Int.floor_le _
  have h2 : t - cum1 + 1/2 < ((jsRound (t - cum1) : ℤ) : ℚ) + 1 := by
    rw [jsRound]; exact Int.lt_floor_add_one _
  by_cases hz : 1 ≤ |jsRound (t - cum1)|
  · rw [if_pos hz]
    exact wcap_near c _ t ht0 htc (by linarith) (by linarith)
  · rw [if_neg hz]
    have hz1 : -1 < jsRound (t - cum1) ∧ jsRound (t - cum1) < 1 := abs_lt.mp (lt_of_not_le hz)
    have hz0 : jsRound (t - cum1) = 0 := by omega
    rw [hz0] at h1 h2
    push_cast at h1 h2
    rw [abs_lt]; constructor <;> linarith

/-- C1: classify returns unknown whenever the value or either range bound
is missing; returns on_target exactly when low ≤ value ≤ high; otherwise,
for lower_is_better it returns exceeds_target exactly when value < low and
outside_target otherwise, and for higher_is_better exceeds_target exactly
when value > high and outside_target otherwise. -/
theorem c1_classify_verdict (v lo hi : ℚ) (d : Direction) :
    deriveVerdict none (some ⟨some lo, some hi⟩) d = Verdict.unknown
    ∧ deriveVerdict (some v) (some ⟨none, some hi⟩) d = Verdict.unknown
    ∧ deriveVerdict (some v) (some ⟨some lo, none⟩) d = Verdict.unknown
    ∧ deriveVerdict (some v) none d = Verdict.unknown
    ∧ (deriveVerdict (some v) (some ⟨some lo, some hi⟩) d = Verdict.on_target ↔ lo ≤ v ∧ v ≤ hi)
    ∧ (deriveVerdict (some v) (some ⟨some lo, some hi⟩) Direction.lower_is_better = Verdict.exceeds_target
        ↔ ¬(lo ≤ v ∧ v ≤ hi) ∧ v < lo)
    ∧ (deriveVerdict (some v) (some ⟨some lo, some hi⟩) Direction.lower_is_better = Verdict.outside_target
        ↔ ¬(lo ≤ v ∧ v ≤ hi) ∧ ¬v < lo)
    ∧ (deriveVerdict (some v) (some ⟨some lo, some hi⟩) Direction.higher_is_better = Verdict.exceeds_target
        ↔ ¬(lo ≤ v ∧ v ≤ hi) ∧ hi < v)
    ∧ (deriveVerdict (some v) (some ⟨some lo, some hi⟩) Direction.higher_is_better = Verdict.outside_target
        ↔ ¬(lo ≤ v ∧ v ≤ hi) ∧ ¬hi < v) := by
  refine ⟨rfl, rfl, rfl, rfl, ?_, ?_, ?_, ?_, ?_⟩ <;>
    · by_cases h : lo ≤ v ∧ v ≤ hi
      · cases d <;> simp [deriveVerdict, h]
      · cases d <;> simp only [deriveVerdict, if_neg h] <;> split_ifs with h2 <;>
          simp_all [gt_iff_lt]

/-- C2: any diagnosis input with clicks equal to zero yields the
no_traffic outcome regardless of every other field; rule 1 dominates. -/
theorem c2_zero_clicks_no_traffic (d : DiagData) (h : d.input.clicks = some 0) :
    (renderDiagnosis d).outcome = Outcome.no_traffic := by
  simp [renderDiagnosis, h, jsOr0]

/-- Witness for C2 at a concrete input with every other field set. -/
theorem c2_zero_clicks_no_traffic_witness :
    (renderDiagnosis
      { input := { budget := some 9999, clicks := some 0, leads := some 500, goal_cpl := some 50 }
        benchmarks := { cpl := some { value := some 125 } }
        overall_goal_status := some GoalStatus.behind }).outcome = Outcome.no_traffic :=
  c2_zero_clicks_no_traffic _ rfl

/-- C3: with nonzero clicks, zero leads with at least one hundred clicks,
or a conversion-rate value above the larger of 1.8 times the range high
and 0.15, selects the verify_tracking outcome. -/
theorem c3_verify_tracking (d : DiagData)
    (hclicks : jsOr0 d.input.clicks ≠ 0)
    (h : (d.input.leads = some 0 ∧ 100 ≤ jsOr0 d.input.clicks)
        ∨ (∃ v, d.benchmarks.cr.bind MetricSample.value = some v
            ∧ v > max ((ensureTargetRange d.benchmarks.cr MUnit.pct MetricName.CR).high * (18/10)) (15/100))) :
    (renderDiagnosis d).outcome = Outcome.verify_tracking := by
  have h2 : (d.input.leads = some 0 ∧ 100 ≤ jsOr0 d.input.clicks) ∨ crSuspicious d.benchmarks = true := by
    rcases h with h | ⟨v, hv, hgt⟩
    · exact Or.inl h
    · right
      simp only [crSuspicious, hv, decide_eq_true_eq]
      exact hgt
  simp only [renderDiagnosis]
  rw [if_neg hclicks, if_pos h2]

/-- Witness for C3: leads zero with one hundred fifty clicks gives
verify_tracking, which is neither no_traffic nor a cost-per-lead outcome. -/
theorem c3_verify_tracking_witness :
    (renderDiagnosis
      { input := { budget := some 5000, clicks := some 150, leads := some 0 } }).outcome
        = Outcome.verify_tracking
    ∧ Outcome.verify_tracking ≠ Outcome.no_traffic
    ∧ Outcome.verify_tracking ≠ Outcome.fix_conversion_rate
    ∧ Outcome.verify_tracking ≠ Outcome.reduce_traffic_cost :=
  ⟨c3_verify_tracking _ (by decide) (Or.inl ⟨rfl, by decide⟩), by decide, by decide, by decide⟩

/-- The outcome projection distributes over a conditional. -/
theorem outcome_ite (c : Prop) [Decidable c] (a b : Diagnosis) :
    (if c then a else b).outcome = if c then a.outcome else b.outcome := by
  split_ifs <;> rfl

/-- The annotation projection distributes over a conditional. -/
theorem tag_ite (c : Prop) [Decidable c] (a b : Diagnosis) :
    (if c then a else b).tag = if c then a.tag else b.tag := by
  split_ifs <;> rfl

/-- Counterexample to C7: a diagnosis input whose clicks value is absent
is nevertheless routed to the no_traffic outcome, because the rule 1 test
coerces a missing clicks to zero. -/
theorem c7_counterexample :
    (({ input := { budget := some 5000, clicks := none, leads := some 50 } } : DiagData).input.clicks
       = none)
    ∧ (renderDiagnosis
        { input := { budget := some 5000, clicks := none, leads := some 50 } }).outcome
      = Outcome.no_traffic := by
  constructor
  · rfl
  · decide

/-- C7 amended: a missing clicks value is coerced to zero and does by
itself trigger no_traffic; missing budget is treated as absent and never
triggers budget_too_low; a missing leads value never satisfies the
zero-leads part of the tracking rule, so verify_tracking can then only
come from the suspicious conversion-rate test. -/
theorem c7_null_handling :
    (∀ d : DiagData, d.input.clicks = none → (renderDiagnosis d).outcome = Outcome.no_traffic)
    ∧ (∀ d : DiagData, d.input.budget = none → (renderDiagnosis d).outcome ≠ Outcome.budget_too_low)
    ∧ (∀ d : DiagData, d.input.leads = none →
        (renderDiagnosis d).outcome = Outcome.verify_tracking → crSuspicious d.benchmarks = true) := by
  refine ⟨?_, ?_, ?_⟩
  · intro d h
    simp [renderDiagnosis, h, jsOr0]
  · intro d h
    have hb : budgetBelow d.input.budget 500 = false := by rw [h]; rfl
    simp only [renderDiagnosis, outcome_ite, hb, Bool.false_eq_true, if_false]
    split_ifs <;> decide
  · intro d h
    simp only [renderDiagnosis, outcome_ite, h]
    simp only [reduceCtorEq, false_and, false_or]
    split_ifs <;> intro hout <;> first | assumption | exact absurd hout (by decide)

/-- Witness for the amended C7 at concrete inputs. -/
theorem c7_null_handling_witness :
    (renderDiagnosis { input := { budget := some 800, clicks := none, leads := some 20 } }).outcome
      = Outcome.no_traffic
    ∧ (renderDiagnosis { input := { budget := none, clicks := some 50, leads := some 2 } }).outcome
      ≠ Outcome.budget_too_low
    ∧ ((renderDiagnosis { input := { budget := some 800, clicks := some 50, leads := none } }).outcome
        = Outcome.verify_tracking →
       crSuspicious ({ input := { budget := some 800, clicks := some 50, leads := none } } : DiagData).benchmarks = true) :=
  ⟨c7_null_handling.1 _ rfl, c7_null_handling.2.1 _ rfl, c7_null_handling.2.2 _ rfl⟩

/-- Counterexample to C9: an input with fewer than 300 clicks (indeed
zero) and a budget of 600 is caught by rule 1 and rendered with no
provisional or budget-constrained annotation at all. -/
theorem c9_counterexample :
    (jsOr0 ({ input := { budget := some 600, clicks := some 0, leads := some 0 } } : DiagData).input.clicks < 300)
    ∧ (renderDiagnosis { input := { budget := some 600, clicks := some 0, leads := some 0 } }).tag
      = Tag.noTag := by
  constructor
  · decide
  · decide

/-- C9 amended: the annotation never changes the chosen outcome, and once
the first three rules have all declined, an input with leads below 15 or
clicks below 300 gets the provisional annotation, and otherwise a budget
in the interval from 500 up to but excluding 1000 gets the
budget_constrained annotation. -/
theorem c9_tag_frame :
    (∀ d : DiagData, (renderDiagnosis d).outcome = diagnosisOutcomeOnly d)
    ∧ (∀ d : DiagData,
        jsOr0 d.input.clicks ≠ 0 →
        ¬((d.input.leads = some 0 ∧ 100 ≤ jsOr0 d.input.clicks) ∨ crSuspicious d.benchmarks = true) →
        budgetBelow d.input.budget 500 = false →
        (jsOr0 d.input.leads < 15 ∨ jsOr0 d.input.clicks < 300) →
        (renderDiagnosis d).tag = Tag.provisional)
    ∧ (∀ d : DiagData,
        jsOr0 d.input.clicks ≠ 0 →
        ¬((d.input.leads = some 0 ∧ 100 ≤ jsOr0 d.input.clicks) ∨ crSuspicious d.benchmarks = true) →
        ¬(jsOr0 d.input.leads < 15 ∨ jsOr0 d.input.clicks < 300) →
        ∀ b : ℚ, d.input.budget = some b → 500 ≤ b → b < 1000 →
        (renderDiagnosis d).tag = Tag.budget_constrained) := by
  refine ⟨?_, ?_, ?_⟩
  · intro d
    simp only [renderDiagnosis, diagnosisOutcomeOnly, outcome_ite]
  · intro d h1 h2 h3 h4
    simp only [renderDiagnosis, tag_ite, if_neg h1, if_neg h2, h3, Bool.false_eq_true,
      if_false, if_pos h4]
    split_ifs <;> rfl
  · intro d h1 h2 h4 b hb hb1 hb2
    have h3 : budgetBelow d.input.budget 500 = false := by
      rw [hb, budgetBelow, decide_eq_false (not_lt.mpr hb1)]
    have h5 : budgetBelow d.input.budget 1000 = true := by
      rw [hb, budgetBelow, decide_eq_true hb2]
    simp only [renderDiagnosis, tag_ite, if_neg h1, if_neg h2, h3, Bool.false_eq_true,
      if_false, if_neg h4, h5, if_pos trivial]
    split_ifs <;> rfl

/-- Witness for the amended C9: a budget of 600 with healthy volume gets
the budget_constrained annotation while the outcome stays exactly the
outcome the annotation-free tree selects. -/
theorem c9_tag_frame_witness :
    (renderDiagnosis
      { input := { budget := some 600, clicks := some 1000, leads := some 40 } }).tag
      = Tag.budget_constrained
    ∧ (renderDiagnosis
        { input := { budget := some 600, clicks := some 1000, leads := some 40 } }).outcome
      = diagnosisOutcomeOnly { input := { budget := some 600, clicks := some 1000, leads := some 40 } } :=
  ⟨c9_tag_frame.2.2 _ (by decide) (by decide) (by decide) 600 rfl (by decide) (by decide),
   c9_tag_frame.1 _⟩

/-- C10: when the first three rules all decline and all three metric
values are missing, every per-metric status is UNKNOWN, which the tree
counts as not WEAK, so the performance-is-good branch fires and the
outcome is ready_to_scale or realign_goal_expectations. -/
theorem c10_unknown_counts_good (d : DiagData)
    (h1 : jsOr0 d.input.clicks ≠ 0)
    (h2 : ¬((d.input.leads = some 0 ∧ 100 ≤ jsOr0 d.input.clicks) ∨ crSuspicious d.benchmarks = true))
    (h3 : budgetBelow d.input.budget 500 = false)
    (hcpl : d.benchmarks.cpl.bind MetricSample.value = none)
    (hcpc : d.benchmarks.cpc.bind MetricSample.value = none)
    (hcr : d.benchmarks.cr.bind MetricSample.value = none) :
    (renderDiagnosis d).outcome = Outcome.ready_to_scale
    ∨ (renderDiagnosis d).outcome = Outcome.realign_goal_expectations := by
  have hgood : statusFromBench d.benchmarks.cpl MetricName.CPL MUnit.dollar Direction.lower_is_better
        ≠ MStatus.WEAK
      ∧ statusFromBench d.benchmarks.cpc MetricName.CPC MUnit.dollar Direction.lower_is_better
        ≠ MStatus.WEAK
      ∧ statusFromBench d.benchmarks.cr MetricName.CR MUnit.pct Direction.higher_is_better
        ≠ MStatus.WEAK := by
    rw [statusFromBench_unknown _ _ _ _ hcpl, statusFromBench_unknown _ _ _ _ hcpc,
      statusFromBench_unknown _ _ _ _ hcr]
    exact ⟨by decide, by decide, by decide⟩
  simp only [renderDiagnosis, outcome_ite, if_neg h1, if_neg h2, h3, Bool.false_eq_true,
    if_false, if_pos hgood]
  by_cases hs : d.overall_goal_status = some GoalStatus.achieved
      ∨ d.overall_goal_status = some GoalStatus.on_track
  · left; rw [if_pos hs]
  · right; rw [if_neg hs]

/-- Witness for C10: all three metric samples absent, healthy traffic,
adequate budget, achieved goal status. -/
theorem c10_unknown_counts_good_witness :
    (renderDiagnosis
      { input := { budget := some 2000, clicks := some 500, leads := some 20 }
        overall_goal_status := some GoalStatus.achieved }).outcome = Outcome.ready_to_scale
    ∨ (renderDiagnosis
      { input := { budget := some 2000, clicks := some 500, leads := some 20 }
        overall_goal_status := some GoalStatus.achieved }).outcome = Outcome.realign_goal_expectations :=
  c10_unknown_counts_good _ (by decide) (by decide) (by decide) rfl rfl rfl

/-- Counterexample to C6: a caller-supplied target_range with low above
high is returned unchanged, so resolve does not always return a range
with low at most high. -/
theorem c6_counterexample :
    ¬((ensureTargetRange (some { target_range := some ⟨some 1, some 0⟩ }) MUnit.dollar MetricName.CPL).low
      ≤ (ensureTargetRange (some { target_range := some ⟨some 1, some 0⟩ }) MUnit.dollar MetricName.CPL).high) := by
  decide

/-- The derived fallback range is ordered when the supplied statistics
are nonnegative. -/
theorem etrFallback_ordered (s : MetricSample) (unit : MUnit) (name : MetricName)
    (hmed : OptNonneg s.median) (hval : OptNonneg s.value)
    (hp75 : OptNonneg s.p75) :
    (etrFallback s unit name).low ≤ (etrFallback s unit name).high := by
  have hm : 0 ≤ s.median.getD (s.value.getD
      (if unit = MUnit.pct then 1/20 else if name = MetricName.CPC then 3 else 50)) := by
    cases hmd : s.median with
    | some q => simpa [hmd] using hmed q (by simp [hmd, Option.mem_def])
    | none =>
      cases hv : s.value with
      | some q => simpa [hmd, hv] using hval q (by simp [hv, Option.mem_def])
      | none =>
        simp only [hmd, hv, Option.getD_none]
        split_ifs <;> norm_num
  have hspan : (0:ℚ) < max (1/100000) (s.median.getD (s.value.getD
      (if unit = MUnit.pct then 1/20 else if name = MetricName.CPC then 3 else 50)) * (15/100)) :=
    lt_max_of_lt_left (by norm_num)
  have hkey : max 0 (s.median.getD (s.value.getD
        (if unit = MUnit.pct then 1/20 else if name = MetricName.CPC then 3 else 50))
        - max (1/100000) (s.median.getD (s.value.getD
          (if unit = MUnit.pct then 1/20 else if name = MetricName.CPC then 3 else 50)) * (15/100)))
      ≤ s.median.getD (s.value.getD
        (if unit = MUnit.pct then 1/20 else if name = MetricName.CPC then 3 else 50))
        + max (1/100000) (s.median.getD (s.value.getD
          (if unit = MUnit.pct then 1/20 else if name = MetricName.CPC then 3 else 50)) * (15/100)) :=
    max_le (by linarith) (by linarith)
  simp only [etrFallback]
  cases h25 : s.p25 with
  | none => simpa [h25] using hkey
  | some q25 =>
    cases h75 : s.p75 with
    | none => simpa [h25, h75] using hkey
    | some q75 =>
      simp only [h25, h75]
      exact max_le (le_trans (hp75 q75 (by simp [h75, Option.mem_def])) (le_max_left q75 q25))
        (le_max_right q75 q25)

/-- C6 amended: resolve returns a range with low at most high provided
any complete caller-supplied target_range is itself ordered and the
supplied statistics (median, value, p75) are nonnegative when present. -/
theorem c6_resolve_ordered (md : Option MetricSample) (unit : MUnit) (name : MetricName)
    (htr : ∀ r : RangeOpt, ∀ lo hi : ℚ, (sampleOf md).target_range = some r →
      r.low = some lo → r.high = some hi → lo ≤ hi)
    (hmed : OptNonneg (sampleOf md).median) (hval : OptNonneg (sampleOf md).value)
    (hp75 : OptNonneg (sampleOf md).p75) :
    (ensureTargetRange md unit name).low ≤ (ensureTargetRange md unit name).high := by
  have hfb := etrFallback_ordered (sampleOf md) unit name hmed hval hp75
  simp only [ensureTargetRange]
  cases h : (sampleOf md).target_range with
  | none => simpa [h] using hfb
  | some tr =>
    cases hlo : tr.low with
    | none => simpa [h, hlo] using hfb
    | some lo =>
      cases hhi : tr.high with
      | none => simpa [h, hlo, hhi] using hfb
      | some hi => simpa [h, hlo, hhi] using htr tr lo hi h hlo hhi

/-- Witness for the amended C6 on a sample with percentile statistics. -/
theorem c6_resolve_ordered_witness :
    (ensureTargetRange (some { value := some 60, p25 := some 45, p75 := some 90 })
        MUnit.dollar MetricName.CPL).low
      ≤ (ensureTargetRange (some { value := some 60, p25 := some 45, p75 := some 90 })
        MUnit.dollar MetricName.CPL).high :=
  c6_resolve_ordered _ _ _
    (fun r lo hi h => by simp [sampleOf] at h)
    (fun q hq => by simp [sampleOf, Option.mem_def] at hq)
    (fun q hq => by simp only [sampleOf, Option.mem_def, Option.some.injEq] at hq; rw [← hq]; norm_num)
    (fun q hq => by simp only [sampleOf, Option.mem_def, Option.some.injEq] at hq; rw [← hq]; norm_num)

/-- Counterexample to C4: with total_pct above the cap the reconciled
cumulative lands on the capped total, fifty away from total_pct. -/
theorem c4_counterexample :
    (({ total_pct := some 150, baseline_pp := some 0, reconcile := true } : WConfig).reconcile = true)
    ∧ ¬(|(renderChurnWaterfall
          { total_pct := some 150, baseline_pp := some 0, reconcile := true }).cumulative - 150| < 1) := by
  constructor
  · rfl
  · norm_num [renderChurnWaterfall, processDrivers, wcap, jsRound, jsOr0]

/-- C4 amended: whenever reconcile is set, the final cumulative lands
within one of the capped total wcap cap_to total_pct (the code caps every
intermediate value, including the reconciliation target, so a total_pct
outside the cap band is reconciled to its capped image); the stated
instance with baseline 20, drivers of 15 and 10 and total 40 is
unaffected, ending at 40 with an appended residual of minus five. -/
theorem c4_waterfall_reconciles (cfg : WConfig) (h : cfg.reconcile = true) :
    |(renderChurnWaterfall cfg).cumulative
      - wcap (cfg.cap_to.getD 100) (cfg.total_pct.getD 0)| < 1 := by
  have hmain := reconcile_near (cfg.cap_to.getD 100)
    (wcap (cfg.cap_to.getD 100) (cfg.total_pct.getD 0))
    (processDrivers (cfg.cap_to.getD 100)
      (wcap (cfg.cap_to.getD 100) (jsOr0 cfg.baseline_pp)) cfg.drivers).2
    (wcap_nonneg _ _) (wcap_le_max _ _)
  simp only [renderChurnWaterfall, h, true_and]
  split_ifs with hz
  · rw [if_pos hz] at hmain
    simpa using hmain
  · rw [if_neg hz] at hmain
    simpa using hmain

/-- Witness for the amended C4 at the stated fixture: baseline 20,
drivers of 15 and 10, total 40, reconcile on; the cumulative ends at 40,
inside the band from 39 to 41, and the appended residual is minus five. -/
theorem c4_waterfall_reconciles_witness :
    |(renderChurnWaterfall
        { total_pct := some 40, baseline_pp := some 20,
          drivers := [{ pp := 15 }, { pp := 10 }], reconcile := true }).cumulative
      - wcap ((none : Option ℚ).getD 100) ((some (40:ℚ)).getD 0)| < 1
    ∧ (renderChurnWaterfall
        { total_pct := some 40, baseline_pp := some 20,
          drivers := [{ pp := 15 }, { pp := 10 }], reconcile := true }).cumulative = 40
    ∧ (39:ℚ) ≤ (renderChurnWaterfall
        { total_pct := some 40, baseline_pp := some 20,
          drivers := [{ pp := 15 }, { pp := 10 }], reconcile := true }).cumulative
    ∧ (renderChurnWaterfall
        { total_pct := some 40, baseline_pp := some 20,
          drivers := [{ pp := 15 }, { pp := 10 }], reconcile := true }).cumulative ≤ 41
    ∧ (renderChurnWaterfall
        { total_pct := some 40, baseline_pp := some 20,
          drivers := [{ pp := 15 }, { pp := 10 }], reconcile := true }).residual = some (-5) := by
  refine ⟨c4_waterfall_reconciles _ rfl, ?_, ?_, ?_, ?_⟩ <;>
    norm_num [renderChurnWaterfall, processDrivers, wcap, jsRound, jsOr0]

/-- C5: solving for a goal via the conversion-rate and recomputing the
cost-per-lead returns exactly the goal when the solved rate was inside
the bounds, and a value observably different from the goal when the
clamp actually clamped. -/
theorem c5_solve_roundtrip (st : SBState) (b : SBounds) (g : ℚ)
    (hg : 0 < g) (hcpc : 0 < st.cpc) (hmn : 0 < b.crMin) (hmm : b.crMin ≤ b.crMax) :
    ((b.crMin ≤ st.cpc / g ∧ st.cpc / g ≤ b.crMax) →
      (compute (solveForGoalViaCR st b (some g))).cpl = some g)
    ∧ (¬(b.crMin ≤ st.cpc / g ∧ st.cpc / g ≤ b.crMax) →
      (compute (solveForGoalViaCR st b (some g))).cpl ≠ some g) := by
  have hsolve : solveForGoalViaCR st b (some g)
      = { st with cr := clamp (st.cpc / g) b.crMin b.crMax } := by
    simp [solveForGoalViaCR, hg, hcpc]
  have hlow : b.crMin ≤ clamp (st.cpc / g) b.crMin b.crMax :=
    le_min (le_max_right _ _) hmm
  have hcrpos : 0 < clamp (st.cpc / g) b.crMin b.crMax := lt_of_lt_of_le hmn hlow
  have hcpl : (compute (solveForGoalViaCR st b (some g))).cpl
      = some (st.cpc / clamp (st.cpc / g) b.crMin b.crMax) := by
    rw [hsolve]
    simp [compute, hcrpos]
  constructor
  · intro hin
    have hclamp : clamp (st.cpc / g) b.crMin b.crMax = st.cpc / g := by
      rw [clamp, max_eq_left hin.1, min_eq_left hin.2]
    rw [hcpl, hclamp]
    have : st.cpc / (st.cpc / g) = g := by
      field_simp
    rw [this]
  · intro hout heq
    rw [hcpl] at heq
    have heq2 : st.cpc / clamp (st.cpc / g) b.crMin b.crMax = g := Option.some.inj heq
    rcases not_and_or.mp hout with h | h
    · have h2 : st.cpc / g < b.crMin := not_le.mp h
      have hclamp : clamp (st.cpc / g) b.crMin b.crMax = b.crMin := by
        rw [clamp, max_eq_right (le_of_lt h2), min_eq_left hmm]
      rw [hclamp] at heq2
      have h3 : st.cpc = g * b.crMin := (div_eq_iff (ne_of_gt hmn)).mp heq2
      rw [h3, mul_comm, mul_div_assoc, div_self (ne_of_gt hg), mul_one] at h2
      exact lt_irrefl _ h2
    · have h2 : b.crMax < st.cpc / g := not_le.mp h
      have hmx : 0 < b.crMax := lt_of_lt_of_le hmn hmm
      have hclamp : clamp (st.cpc / g) b.crMin b.crMax = b.crMax := by
        rw [clamp, max_eq_left (le_of_lt (lt_of_le_of_lt hmm h2)), min_eq_right (le_of_lt h2)]
      rw [hclamp] at heq2
      have h3 : st.cpc = g * b.crMax := (div_eq_iff (ne_of_gt hmx)).mp heq2
      rw [h3, mul_comm, mul_div_assoc, div_self (ne_of_gt hg), mul_one] at h2
      exact lt_irrefl _ h2

/-- Witness for C5 on a concrete state: cpc 3, goal 50, bounds that do
not clamp, so the recomputed cost-per-lead equals the goal exactly. -/
theorem c5_solve_roundtrip_witness :
    (compute (solveForGoalViaCR ⟨5000, 3, 1/25⟩ ⟨0, 10000, 1, 10, 3/250, 2/25⟩ (some 50))).cpl
      = some 50 :=
  (c5_solve_roundtrip ⟨5000, 3, 1/25⟩ ⟨0, 10000, 1, 10, 3/250, 2/25⟩ 50
    (by norm_num) (by norm_num) (by norm_num) (by norm_num)).1 (by norm_num)

/-- C8: a non-finite parse leaves the scenario state entirely unchanged;
otherwise the updated field is clamped into its own bound interval, with
a percent-entered conversion-rate first divided by one hundred; nothing
is ever rejected. -/
theorem c8_update_clamps (st : SBState) (b : SBounds) (key : SBField) (isNum : Bool) :
    updateState st b key none isNum = st
    ∧ (∀ v : ℚ, fieldMin b key ≤ fieldMax b key →
        fieldMin b key ≤ getField (updateState st b key (some v) isNum) key
        ∧ getField (updateState st b key (some v) isNum) key ≤ fieldMax b key)
    ∧ (∀ v : ℚ, updateState st b SBField.cr (some v) true
        = setField st SBField.cr (clamp (v / 100) b.crMin b.crMax)) := by
  refine ⟨rfl, ?_, ?_⟩
  · intro v hle
    simp only [updateState, getField_setField, clamp]
    exact ⟨le_min (le_max_right _ _) hle, min_le_right _ _⟩
  · intro v
    simp [updateState, fieldMin, fieldMax]

/-- Witness for C8: a missing parse is a no-op, an oversized cpc input is
clamped into its bounds, and a percent conversion-rate entry is divided
by one hundred before clamping. -/
theorem c8_update_clamps_witness :
    updateState ⟨5000, 3, 1/25⟩ ⟨0, 10000, 1, 10, 3/250, 2/25⟩ SBField.cpc none false
      = ⟨5000, 3, 1/25⟩
    ∧ ((1:ℚ) ≤ getField (updateState ⟨5000, 3, 1/25⟩ ⟨0, 10000, 1, 10, 3/250, 2/25⟩
          SBField.cpc (some 99) false) SBField.cpc
      ∧ getField (updateState ⟨5000, 3, 1/25⟩ ⟨0, 10000, 1, 10, 3/250, 2/25⟩
          SBField.cpc (some 99) false) SBField.cpc ≤ 10)
    ∧ updateState ⟨5000, 3, 1/25⟩ ⟨0, 10000, 1, 10, 3/250, 2/25⟩ SBField.cr (some 5) true
      = setField ⟨5000, 3, 1/25⟩ SBField.cr (clamp (5 / 100) (3/250) (2/25)) :=
  ⟨(c8_update_clamps ⟨5000, 3, 1/25⟩ ⟨0, 10000, 1, 10, 3/250, 2/25⟩ SBField.cpc false).1,
   (c8_update_clamps ⟨5000, 3, 1/25⟩ ⟨0, 10000, 1, 10, 3/250, 2/25⟩ SBField.cpc false).2.1 99
     (by norm_num [fieldMin, fieldMax]),
   (c8_update_clamps ⟨5000, 3, 1/25⟩ ⟨0, 10000, 1, 10, 3/250, 2/25⟩ SBField.cpc false).2.2 5⟩
